import Mathlib

/-!
Shallow embedding of the graph construction and validation core of the
Chatbot Flow Builder (App.jsx): the data model (nodes, edges, selection),
the connection admission predicate `isValidConnection`, the save handler
`handleSave` with its two validation rules, and the label-update operation
`onNodeDataChange`.
-/

namespace FlowBuilder

/-- Canvas position of a node.  The numeric values never influence any of
the validation or mutation logic; they are carried along unchanged. -/
structure Position where
  x : Int
  y : Int
deriving DecidableEq, Repr

/-- The `data` payload of a node: `data: { label }` in the source. -/
structure NodeData where
  label : String
deriving DecidableEq, Repr

/-- A React Flow node as created by `onDrop` / `initialNodes`:
`{ id, type, position, data: { label } }`. -/
structure Node where
  id : String
  type : String
  position : Position
  data : NodeData
deriving DecidableEq, Repr

/-- A React Flow edge as created by `onConnect`: the fields the core logic
can see are `id`, `source` and `target`; styling fields carry no logic. -/
structure Edge where
  id : String
  source : String
  target : String
deriving DecidableEq, Repr

/-- `isValidConnection` from App.jsx: called on connection-drag release.
First blocks a second outgoing edge from the same source
(`edges.some((e) => e.source === connection.source)`), then blocks
self-loops (`connection.source === connection.target`), otherwise accepts. -/
def isValidConnection (edges : List Edge) (source target : String) : Bool :=
  if edges.any (fun e => e.source == source) then false
  else if source == target then false
  else true

/-- Toast message of the empty-canvas guard in `handleSave`. -/
def emptyCanvasMsg : String :=
  "Canvas is empty — add at least one node before saving."

/-- The local `multiOutgoing` of `handleSave`: nodes with more than one
outgoing edge, in node insertion order
(`nodes.filter((n) => edges.filter((e) => e.source === n.id).length > 1)`). -/
def multiOutgoing (nodes : List Node) (edges : List Edge) : List Node :=
  nodes.filter (fun n => (edges.filter (fun e => e.source == n.id)).length > 1)

/-- The local `disconnected` of `handleSave`: nodes that are not the target
of any edge (`nodes.filter((n) => !edges.some((e) => e.target === n.id))`). -/
def disconnected (nodes : List Node) (edges : List Edge) : List Node :=
  nodes.filter (fun n => !(edges.any (fun e => e.target == n.id)))

/-- Failure toast of Rule 1 in `handleSave`, built exactly as the template
literal in the source builds it from the `multiOutgoing` list. -/
def multiOutgoingMsg (offending : List Node) : String :=
  "Save failed: node" ++ (if offending.length > 1 then "s" else "") ++ " " ++
  "(id: " ++ String.intercalate ", " (offending.map (fun n => n.id)) ++ ") " ++
  "have more than one outgoing connection."

/-- Failure toast of Rule 2 in `handleSave`, built exactly as the template
literal in the source builds it from `disconnected.length`. -/
def noIncomingMsg (count : Nat) : String :=
  "Save failed: " ++ toString count ++ " nodes have no incoming connections. " ++
  "Only one \"start\" node is allowed to be unconnected."

/-- Success toast of `handleSave`, built exactly as the template literal in
the source builds it from the node and edge counts. -/
def savedMsg (nodes : List Node) (edges : List Edge) : String :=
  "Flow saved! " ++ toString nodes.length ++ " node" ++
  (if nodes.length ≠ 1 then "s" else "") ++ " · " ++
  toString edges.length ++ " edge" ++
  (if edges.length ≠ 1 then "s" else "") ++ " 🎉"

/-- Observable outcome of one `handleSave` invocation: the `showToast`
calls as (type, msg) pairs, the arguments of the `resolve` calls in order,
and the ids of the offending nodes of the failing rule (the `.map(n => n.id)`
of the local `multiOutgoing` / `disconnected` list on that path; empty on
the empty-canvas path and on success). -/
structure SaveOutcome where
  toasts : List (String × String)
  resolved : List Bool
  offenders : List String
deriving DecidableEq, Repr

/-- `handleSave` from App.jsx.  Control flow mirrors the source: the
empty-canvas guard, then Rule 1 (no node with more than one outgoing edge),
then — only when `nodes.length > 1` — Rule 2 (at most one node without an
incoming edge), and otherwise the success path.  `fail msg` is
`showToast('error', msg); resolve(false)`, `pass msg` is
`showToast('success', msg); resolve(true)`. -/
def handleSave (nodes : List Node) (edges : List Edge) : SaveOutcome :=
  if nodes.length = 0 then
    { toasts := [("error", emptyCanvasMsg)], resolved := [false], offenders := [] }
  else if (multiOutgoing nodes edges).length > 0 then
    { toasts := [("error", multiOutgoingMsg (multiOutgoing nodes edges))],
      resolved := [false],
      offenders := (multiOutgoing nodes edges).map (fun n => n.id) }
  else if nodes.length > 1 then
    if (disconnected nodes edges).length > 1 then
      { toasts := [("error", noIncomingMsg (disconnected nodes edges).length)],
        resolved := [false],
        offenders := (disconnected nodes edges).map (fun n => n.id) }
    else
      { toasts := [("success", savedMsg nodes edges)], resolved := [true],
        offenders := [] }
  else
    { toasts := [("success", savedMsg nodes edges)], resolved := [true],
      offenders := [] }

/-- The FlowBuilder state the label-update operation touches: the node
list and the `selectedNode` reference (null when nothing is focused). -/
structure FlowState where
  nodes : List Node
  selectedNode : Option Node
deriving DecidableEq, Repr

/-- `onNodeDataChange` from App.jsx: maps over the node list replacing the
matching node's `data.label`, and mirrors the change into `selectedNode`
when the focused node has the same id (`prev?.id === id`). -/
def onNodeDataChange (s : FlowState) (id newLabel : String) : FlowState :=
  { nodes := s.nodes.map (fun n =>
      if n.id == id then { n with data := { n.data with label := newLabel } } else n),
    selectedNode := match s.selectedNode with
      | some prev =>
        if prev.id == id then some { prev with data := { prev.data with label := newLabel } }
        else some prev
      | none => none }

/- ── Concrete fixtures used by counterexamples and witnesses ── -/

/-- Fixture node with id "a". -/
def na : Node := ⟨"a", "textNode", ⟨0, 0⟩, ⟨"A"⟩⟩

/-- Fixture node with id "b". -/
def nb : Node := ⟨"b", "textNode", ⟨1, 0⟩, ⟨"B"⟩⟩

/-- Fixture node with id "c". -/
def nc : Node := ⟨"c", "textNode", ⟨2, 0⟩, ⟨"C"⟩⟩

/-- Fixture node with id "d". -/
def nd : Node := ⟨"d", "textNode", ⟨3, 0⟩, ⟨"D"⟩⟩

/-- Fixture edge from a to b. -/
def eab : Edge := ⟨"e1", "a", "b"⟩

/-- Fixture edge from a to c. -/
def eac : Edge := ⟨"e2", "a", "c"⟩

/-- Fixture edge from a to d. -/
def ead : Edge := ⟨"e3", "a", "d"⟩

/-- Fixture edge from b to a. -/
def eba : Edge := ⟨"e4", "b", "a"⟩

/- ──────────────────────────  Theorems  ────────────────────────── -/

/-- C4: for every edge list E and every node id n,
`isValidConnection E n n = false` — a self-loop attempt is always
rejected, whatever the existing edges are. -/
theorem selfLoop_always_rejected (E : List Edge) (n : String) :
    isValidConnection E n n = false := by
  unfold isValidConnection
  split
  · rfl
  · simp

/-- C5: if some existing edge already has source `s`, then
`isValidConnection E s t = false` for every target `t`: a node that
already drives an outgoing edge can never source a new connection. -/
theorem busySource_always_rejected (E : List Edge) (s t : String)
    (h : ∃ e ∈ E, e.source = s) :
    isValidConnection E s t = false := by
  unfold isValidConnection
  have hany : E.any (fun e => e.source == s) = true := by
    rcases h with ⟨e, he, hes⟩
    exact List.any_eq_true.mpr ⟨e, he, by simp [hes]⟩
  simp [hany]

/-- Witness for C5 at E = [a→b], s = "a", t = "c". -/
theorem busySource_always_rejected_witness :
    (∃ e ∈ [eab], e.source = "a") ∧ isValidConnection [eab] "a" "c" = false :=
  ⟨⟨eab, by simp, rfl⟩, busySource_always_rejected [eab] "a" "c" ⟨eab, by simp, rfl⟩⟩

/-- Two edge lists with element-wise equal source ids agree on the
"some edge has source s" test. -/
theorem any_source_congr (E₁ E₂ : List Edge) (s : String)
    (h : E₁.map Edge.source = E₂.map Edge.source) :
    E₁.any (fun e => e.source == s) = E₂.any (fun e => e.source == s) := by
  induction E₁ generalizing E₂ with
  | nil =>
    cases E₂ with
    | nil => rfl
    | cons b t₂ => simp at h
  | cons a t ih =>
    cases E₂ with
    | nil => simp at h
    | cons b t₂ =>
      simp only [List.map_cons, List.cons.injEq] at h
      simp only [List.any_cons, h.1, ih t₂ h.2]

/-- C10: `isValidConnection` only inspects the source ids of the existing
edges (besides the attempted pair): two edge lists with element-wise equal
source ids yield the same verdict for every attempt. -/
theorem isValidConnection_depends_only_on_sources
    (E₁ E₂ : List Edge) (s t : String)
    (h : E₁.map Edge.source = E₂.map Edge.source) :
    isValidConnection E₁ s t = isValidConnection E₂ s t := by
  unfold isValidConnection
  rw [any_source_congr E₁ E₂ s h]

/-- Witness for C10: [a→b] and [a→d] (different target, id) agree. -/
theorem isValidConnection_depends_only_on_sources_witness :
    [eab].map Edge.source = [ead].map Edge.source ∧
      isValidConnection [eab] "b" "c" = isValidConnection [ead] "b" "c" :=
  ⟨rfl, isValidConnection_depends_only_on_sources [eab] [ead] "b" "c" rfl⟩

/-- C2: on a non-empty node list, if some node has more than one outgoing
edge, `handleSave` fails (resolves false) with the multi-outgoing toast and
the offending ids are exactly the multi-outgoing nodes in node insertion
order. -/
theorem multiOutgoing_fails (nodes : List Node) (edges : List Edge)
    (hne : nodes ≠ [])
    (h : ∃ n ∈ nodes, (edges.filter (fun e => e.source == n.id)).length > 1) :
    (handleSave nodes edges).resolved = [false] ∧
    (handleSave nodes edges).toasts =
      [("error", multiOutgoingMsg (multiOutgoing nodes edges))] ∧
    (handleSave nodes edges).offenders =
      (multiOutgoing nodes edges).map (fun n => n.id) := by
  have h0 : ¬ nodes.length = 0 := by simpa [List.length_eq_zero] using hne
  have hmo : (multiOutgoing nodes edges).length > 0 := by
    rcases h with ⟨n, hn, hp⟩
    exact List.length_pos_of_mem (List.mem_filter.mpr ⟨hn, by simpa using hp⟩)
  unfold handleSave
  rw [if_neg h0, if_pos hmo]
  exact ⟨rfl, rfl, rfl⟩

/-- Witness for C2 at nodes [a,b,c] and edges a→b, a→c: the verdict fails
and the offending ids are exactly [a]. -/
theorem multiOutgoing_fails_witness :
    (∃ n ∈ [na, nb, nc], (([eab, eac] : List Edge).filter
        (fun e => e.source == n.id)).length > 1) ∧
    (handleSave [na, nb, nc] [eab, eac]).resolved = [false] ∧
    (handleSave [na, nb, nc] [eab, eac]).offenders = ["a"] :=
  ⟨⟨na, by decide, by decide⟩,
   (multiOutgoing_fails [na, nb, nc] [eab, eac] (by decide)
     ⟨na, by decide, by decide⟩).1,
   ((multiOutgoing_fails [na, nb, nc] [eab, eac] (by decide)
     ⟨na, by decide, by decide⟩).2.2).trans (by decide)⟩

/-- Counterexample to C1 as stated: nodes [a,b,c,d] with edges a→c, a→d
have two nodes (a and b) without incoming edges, yet `handleSave` reports
the multi-outgoing failure with offending ids [a], not the set [a, b] of
nodes without incoming edges. -/
theorem rootCount_claim_counterexample :
    ([na, nb, nc, nd] : List Node).length > 1 ∧
    (disconnected [na, nb, nc, nd] [eac, ead]).length > 1 ∧
    (handleSave [na, nb, nc, nd] [eac, ead]).offenders ≠
      (disconnected [na, nb, nc, nd] [eac, ead]).map (fun n => n.id) := by
  decide

/-- C1 (amended): on a node list with more than one node, when no node has
more than one outgoing edge and more than one node has zero incoming
edges, `handleSave` fails with the toast stating the count of such nodes,
and the offending ids are exactly those nodes in node insertion order. -/
theorem rootCount_fails (nodes : List Node) (edges : List Edge)
    (h1 : nodes.length > 1)
    (h2 : multiOutgoing nodes edges = [])
    (h3 : (disconnected nodes edges).length > 1) :
    (handleSave nodes edges).resolved = [false] ∧
    (handleSave nodes edges).toasts =
      [("error", noIncomingMsg (disconnected nodes edges).length)] ∧
    (handleSave nodes edges).offenders =
      (disconnected nodes edges).map (fun n => n.id) := by
  have h0 : ¬ nodes.length = 0 := by omega
  have hmo : ¬ (multiOutgoing nodes edges).length > 0 := by simp [h2]
  unfold handleSave
  rw [if_neg h0, if_neg hmo, if_pos h1, if_pos h3]
  exact ⟨rfl, rfl, rfl⟩

/-- Witness for C1 at two nodes a, b and no edges: the verdict fails, the
toast states the count 2, and the offending ids are [a, b]. -/
theorem rootCount_fails_witness :
    ([na, nb] : List Node).length > 1 ∧
    multiOutgoing [na, nb] [] = [] ∧
    (disconnected [na, nb] []).length > 1 ∧
    (handleSave [na, nb] []).resolved = [false] ∧
    (handleSave [na, nb] []).toasts = [("error", noIncomingMsg 2)] ∧
    (handleSave [na, nb] []).offenders = ["a", "b"] :=
  ⟨by decide, by decide, by decide,
   (rootCount_fails [na, nb] [] (by decide) (by decide) (by decide)).1,
   ((rootCount_fails [na, nb] [] (by decide) (by decide) (by decide)).2.1).trans
     (by decide),
   ((rootCount_fails [na, nb] [] (by decide) (by decide) (by decide)).2.2).trans
     (by decide)⟩

/-- C3: on a non-empty node list where no node has more than one outgoing
edge and at most one node lacks an incoming edge, `handleSave` succeeds
(resolves true with the success toast); in particular a count of zero
nodes without incoming edges (a cycle) is accepted. -/
theorem validFlow_saves (nodes : List Node) (edges : List Edge)
    (h1 : nodes ≠ [])
    (h2 : ∀ n ∈ nodes, ¬ (edges.filter (fun e => e.source == n.id)).length > 1)
    (h3 : (disconnected nodes edges).length ≤ 1) :
    (handleSave nodes edges).resolved = [true] ∧
    (handleSave nodes edges).toasts = [("success", savedMsg nodes edges)] ∧
    (handleSave nodes edges).offenders = [] := by
  have h0 : ¬ nodes.length = 0 := by simpa [List.length_eq_zero] using h1
  have hmo : ¬ (multiOutgoing nodes edges).length > 0 := by
    have hnil : multiOutgoing nodes edges = [] :=
      List.filter_eq_nil_iff.mpr (fun n hn => by simpa using h2 n hn)
    simp [hnil]
  unfold handleSave
  rw [if_neg h0, if_neg hmo]
  by_cases hlen : nodes.length > 1
  · rw [if_pos hlen, if_neg (by omega : ¬ (disconnected nodes edges).length > 1)]
    exact ⟨rfl, rfl, rfl⟩
  · rw [if_neg hlen]
    exact ⟨rfl, rfl, rfl⟩

/-- Witness for C3 at the two-node cycle a→b, b→a: zero nodes lack an
incoming edge and the save succeeds. -/
theorem validFlow_saves_witness :
    ([na, nb] : List Node) ≠ [] ∧
    (∀ n ∈ [na, nb], ¬ (([eab, eba] : List Edge).filter
        (fun e => e.source == n.id)).length > 1) ∧
    (disconnected [na, nb] [eab, eba]).length ≤ 1 ∧
    (handleSave [na, nb] [eab, eba]).resolved = [true] :=
  ⟨by decide, by decide, by decide,
   (validFlow_saves [na, nb] [eab, eba] (by decide) (by decide) (by decide)).1⟩

/-- C6: every invocation of `handleSave` calls `resolve` exactly once —
with false on each failing path (empty canvas, multi-outgoing, multiple
roots) and with true exactly when all checks pass. -/
theorem handleSave_resolves_once (nodes : List Node) (edges : List Edge) :
    ((handleSave nodes edges).resolved = [true] ∧ nodes ≠ [] ∧
      multiOutgoing nodes edges = [] ∧
      (nodes.length ≤ 1 ∨ (disconnected nodes edges).length ≤ 1)) ∨
    ((handleSave nodes edges).resolved = [false] ∧
      (nodes = [] ∨ multiOutgoing nodes edges ≠ [] ∨
        (nodes.length > 1 ∧ (disconnected nodes edges).length > 1))) := by
  unfold handleSave
  by_cases h0 : nodes.length = 0
  · right
    rw [if_pos h0]
    exact ⟨rfl, Or.inl (List.length_eq_zero.mp h0)⟩
  · rw [if_neg h0]
    by_cases hmo : (multiOutgoing nodes edges).length > 0
    · right
      rw [if_pos hmo]
      exact ⟨rfl, Or.inr (Or.inl (List.length_pos.mp hmo))⟩
    · rw [if_neg hmo]
      have hmoe : multiOutgoing nodes edges = [] := by
        simpa [List.length_eq_zero] using hmo
      have hne : nodes ≠ [] := by simpa [← List.length_eq_zero] using h0
      by_cases hlen : nodes.length > 1
      · rw [if_pos hlen]
        by_cases hdis : (disconnected nodes edges).length > 1
        · right
          rw [if_pos hdis]
          exact ⟨rfl, Or.inr (Or.inr ⟨hlen, hdis⟩)⟩
        · left
          rw [if_neg hdis]
          exact ⟨rfl, hne, hmoe, Or.inr (by omega)⟩
      · left
        rw [if_neg hlen]
        exact ⟨rfl, hne, hmoe, Or.inl (by omega)⟩

/-- C7: relabeling the currently focused node makes the `selectedNode`
view immediately carry the new label. -/
theorem focused_relabel_visible (s : FlowState) (id newLabel : String)
    (prev : Node) (hsel : s.selectedNode = some prev) (hid : prev.id = id) :
    ((onNodeDataChange s id newLabel).selectedNode).map
      (fun n => n.data.label) = some newLabel := by
  simp [onNodeDataChange, hsel, hid]

/-- Witness for C7: node a focused, relabeled to "x". -/
theorem focused_relabel_visible_witness :
    ((onNodeDataChange ⟨[na], some na⟩ "a" "x").selectedNode).map
      (fun n => n.data.label) = some "x" :=
  focused_relabel_visible ⟨[na], some na⟩ "a" "x" na rfl rfl

/-- Relabeling maps the identity over a node list containing no node with
the given id. -/
theorem relabel_map_id (ns : List Node) (id newLabel : String)
    (h : ∀ n ∈ ns, n.id ≠ id) :
    ns.map (fun n =>
      if n.id == id then { n with data := { n.data with label := newLabel } }
      else n) = ns := by
  induction ns with
  | nil => rfl
  | cons a t ih =>
    simp only [List.map_cons]
    rw [if_neg (by simpa using h a (List.mem_cons_self a t)),
        ih (fun n hn => h n (List.mem_cons_of_mem a hn))]

/-- C8: `onNodeDataChange` preserves the node count; positionally, the
node whose id matches gets exactly its `data.label` replaced (id and all
other fields kept) and every other node is unchanged; when no node carries
the id, the node list is unchanged. -/
theorem relabel_frame (s : FlowState) (id newLabel : String) :
    (onNodeDataChange s id newLabel).nodes.length = s.nodes.length ∧
    (∀ i : Nat, (onNodeDataChange s id newLabel).nodes[i]? =
      (s.nodes[i]?).map (fun n =>
        if n.id == id then { n with data := { n.data with label := newLabel } }
        else n)) ∧
    ((∀ n ∈ s.nodes, n.id ≠ id) →
      (onNodeDataChange s id newLabel).nodes = s.nodes) := by
  refine ⟨by simp [onNodeDataChange], fun i => by simp [onNodeDataChange], ?_⟩
  intro h
  exact relabel_map_id s.nodes id newLabel h

/-- Witness for C8: relabeling an absent id leaves the node list intact. -/
theorem relabel_frame_witness :
    (onNodeDataChange ⟨[na, nb], none⟩ "z" "L").nodes = [na, nb] :=
  (relabel_frame ⟨[na, nb], none⟩ "z" "L").2.2 (by decide)

/-- C9: the save validation is deterministic and idempotent on a fixed
snapshot, and the offending ids it reports always form a subsequence of
the node ids in node insertion order. -/
theorem handleSave_deterministic (nodes : List Node) (edges : List Edge) :
    handleSave nodes edges = handleSave nodes edges ∧
    (handleSave nodes edges).offenders.Sublist
      (nodes.map (fun n => n.id)) := by
  refine ⟨rfl, ?_⟩
  unfold handleSave
  by_cases h0 : nodes.length = 0
  · rw [if_pos h0]
    exact List.nil_sublist _
  · rw [if_neg h0]
    by_cases hmo : (multiOutgoing nodes edges).length > 0
    · rw [if_pos hmo]
      exact List.Sublist.map _ (List.filter_sublist nodes)
    · rw [if_neg hmo]
      by_cases hlen : nodes.length > 1
      · rw [if_pos hlen]
        by_cases hdis : (disconnected nodes edges).length > 1
        · rw [if_pos hdis]
          exact List.Sublist.map _ (List.filter_sublist nodes)
        · rw [if_neg hdis]
          exact List.nil_sublist _
      · rw [if_neg hlen]
        exact List.nil_sublist _

end FlowBuilder
